import Mathlib

/-!
Verification of the market-data collector and configuration manager of the
ae-trader repository (src/data_collector.py, src/config.py).

The data model, the fetch orchestrator and the configuration manager are
embedded shallowly: Python dictionaries become functions into Option,
exceptions become Except, and the asynchronous context-manager protocol
becomes explicit state passing over an exit-status sum type.

The body of MarketDataCollector.fetch_ohlcv is truncated in the source
fragment (the file ends inside its docstring), so the retry/fallback loop
and the cache get/put operations are modelled from the spec, as marked on
each such definition.
-/

namespace AeTrader

/-- One OHLCV bar, the canonical record of the data model: a timestamp and
the open, high, low, close prices plus the traded volume. -/
structure OHLCVRecord where
  timestamp : Int
  openPrice : Rat
  highPrice : Rat
  lowPrice : Rat
  closePrice : Rat
  volume : Rat
deriving DecidableEq

/-- A normalized OHLCV series: the ordered sequence of bars returned by a
successful fetch. -/
abbrev Series := List OHLCVRecord

/-- The per-provider failure taxonomy of the error-handling design:
RateLimitError and TransientNetworkError are retryable within one provider,
AuthError, UnsupportedSymbolError and SchemaError are not. -/
inductive FetchError
  | RateLimitError
  | TransientNetworkError
  | AuthError
  | UnsupportedSymbolError
  | SchemaError
deriving DecidableEq

/-- Whether an adapter failure is retried within the same provider:
true exactly on RateLimitError and TransientNetworkError. -/
def retryable : FetchError → Bool
  | FetchError.RateLimitError => true
  | FetchError.TransientNetworkError => true
  | _ => false

/-- The observable behaviour of one source adapter for a fixed request:
the result of its k-th fetch attempt (counted from 0), either a raw
payload already normalized into a Series or a FetchError. -/
abbrev ProviderBehavior := Nat → Except FetchError Series

/-- Modelled from the spec: the per-provider attempt loop of the missing
fetch_ohlcv body (src/data_collector.py is truncated inside the docstring
of fetch_ohlcv).  Makes one attempt; on a retryable error with remaining
budget it retries, on a non-retryable error it stops at once.  Returns the
final result together with the number of attempts made.  The argument
remaining is the number of retries still allowed after this attempt. -/
def attemptProvider (b : ProviderBehavior) (made : Nat) :
    Nat → Except FetchError Series × Nat
  | 0 => (b made, 1)
  | Nat.succ n =>
    match b made with
    | Except.ok s => (Except.ok s, 1)
    | Except.error e =>
      if retryable e then
        let r := attemptProvider b (made + 1) n
        (r.1, r.2 + 1)
      else (Except.error e, 1)

/-- Modelled from the spec: attempt one provider up to N times (the
per-provider retry bound; reference value 3). -/
def tryProvider (N : Nat) (b : ProviderBehavior) :
    Except FetchError Series × Nat :=
  attemptProvider b 0 (N - 1)

/-- Modelled from the spec: the fallback loop of fetch_ohlcv for
source = auto.  Providers are tried in order; the first success wins and
later providers are never invoked; if every provider fails the result is
the AllSourcesExhaustedError payload, the ordered list of one failure
reason per provider attempted.  The second component records how many
attempts each invoked provider received, in order. -/
def fetch_ohlcv_auto (N : Nat) :
    List ProviderBehavior → Except (List FetchError) Series × List Nat
  | [] => (Except.error [], [])
  | b :: rest =>
    let r := tryProvider N b
    match r.1 with
    | Except.ok s => (Except.ok s, [r.2])
    | Except.error e =>
      let r2 := fetch_ohlcv_auto N rest
      match r2.1 with
      | Except.ok s => (Except.ok s, r.2 :: r2.2)
      | Except.error es => (Except.error (e :: es), r.2 :: r2.2)

/-- The cache key of the data model: (symbol, interval, source). -/
abbrev CacheKey := String × String × String

/-- One cache entry: the stored series together with the fetch instant and
the time-to-live, as in the data model.  The underlying store is the
dictionary self dot cache of MarketDataCollector (src/data_collector.py
line 28); the entry shape and the expiry rule are from the spec since the
code that reads and writes the dictionary is in the truncated part. -/
structure CacheEntry where
  series : Series
  fetched_at : Nat
  ttl : Nat
deriving DecidableEq

/-- The in-memory cache: a map from composite key to entry. -/
abbrev Cache := CacheKey → Option CacheEntry

/-- Modelled from the spec: the cache put operation of the Cache Layer
(the code performing it lies in the truncated body of fetch_ohlcv).
Stores the series with the current instant and the given ttl under the
key, replacing any previous entry as one unit. -/
def cachePut (c : Cache) (k : CacheKey) (s : Series) (now ttl : Nat) : Cache :=
  fun k' => if k' = k then some { series := s, fetched_at := now, ttl := ttl } else c k'

/-- Modelled from the spec: the cache get operation of the Cache Layer.
An entry is valid iff now - fetched_at < ttl; an expired or missing entry
is treated as absent, never served. -/
def cacheGet (c : Cache) (k : CacheKey) (now : Nat) : Option Series :=
  match c k with
  | some e => if now < e.fetched_at + e.ttl then some e.series else none
  | none => none

/-- The default time-to-live of the cache, 300 time units
(src/data_collector.py line 29). -/
def cache_ttl : Nat := 300

/-- The network session owned by the collector, reduced to the one
observable the claims need: whether it has been closed. -/
structure ClientSession where
  closed : Bool
deriving DecidableEq

/-- The mutable state of a MarketDataCollector: the optional network
session (field session, src/data_collector.py line 27) and the cache
dictionary (line 28). -/
structure Collector where
  session : Option ClientSession
  cache : Cache

/-- How the body of an async-with block over the collector finishes:
a normal return, an exception raised by a fetch, or cancellation of the
task.  In every case the context-manager protocol invokes the exit
handler. -/
inductive BodyOutcome (α : Type)
  | normal (a : α)
  | raised (e : String)
  | cancelled

/-- MarketDataCollector.aenter (src/data_collector.py lines 31-36):
opens a fresh client session and stores it on the collector. -/
def aenter (c : Collector) : Collector :=
  { c with session := some { closed := false } }

/-- MarketDataCollector.aexit (src/data_collector.py lines 38-41):
if a session is present, close it; otherwise do nothing. -/
def aexit (c : Collector) : Collector :=
  match c.session with
  | some s => { c with session := some { s with closed := true } }
  | none => c

/-- The async-with statement over the collector: enter, run the body, and
run the exit handler on every exit path (normal return, raised exception,
cancellation), as the context-manager protocol prescribes.  The body may
update the cache dictionary but never reassigns the session field, which
matches the collector code, where only aenter and aexit touch it. -/
def withCollector {α : Type} (c : Collector)
    (body : Collector → BodyOutcome α × Cache) : BodyOutcome α × Collector :=
  let c1 := aenter c
  let (r, cache1) := body c1
  (r, aexit { c1 with cache := cache1 })

/-- The closed enum of supported data sources
(src/data_collector.py lines 14-19). -/
inductive DataSource
  | ALPHA_VANTAGE
  | POLYGON
  | CCXT
  | YFINANCE
deriving DecidableEq

/-- The string value of each DataSource member, exactly as written in the
enum definition. -/
def DataSource.value : DataSource → String
  | DataSource.ALPHA_VANTAGE => "alpha_vantage"
  | DataSource.POLYGON => "polygon"
  | DataSource.CCXT => "ccxt"
  | DataSource.YFINANCE => "yfinance"

/-- The default of the source parameter of fetch_ohlcv
(src/data_collector.py line 47). -/
def fetch_ohlcv_default_source : DataSource := DataSource.ALPHA_VANTAGE

/-- A JSON value, the result type of a successful json.loads call. -/
inductive JsonVal
  | jNull
  | jBool (b : Bool)
  | jNum (n : Int)
  | jStr (s : String)
  | jArr (xs : List JsonVal)
  | jObj (fields : List (String × JsonVal))

/-- A Python value held by the configuration manager: either an opaque
string or a structured JSON-shaped value (dict, list, number, ...), or
None.  update_config accepts any of these; get_config produces a string
or a decoded JSON value from the environment. -/
inductive PyValue
  | pyNone
  | pyStr (s : String)
  | pyJson (j : JsonVal)

/-- The state of a ConfigManager (src/config.py lines 41-52): the local
cache dictionary, the process environment seen through os.getenv, whether
the Firebase client was initialized, and the log. -/
structure ConfigManager where
  configCache : String → Option PyValue
  env : String → Option String
  db : Bool
  logs : List String

/-- The test of src/config.py line 84: the raw value starts with an opening
brace (character code 123) or an opening bracket (character code 91).
Checking the first character is exactly what the single-character
startswith calls of the source do. -/
def looksLikeJson (s : String) : Bool :=
  match s.data with
  | [] => false
  | c :: _ => c = Char.ofNat 123 || c = Char.ofNat 91

/-- The environment-value decoding of get_config (src/config.py lines
82-87): when the raw string begins with a brace or a bracket, try
json.loads and keep the parse on success; on JSONDecodeError, and for any
other raw string, keep the string.  The behaviour of json.loads itself is
external to the repository and is passed in as the function jm. -/
def decodeEnvValue (jm : String → Option JsonVal) (s : String) : PyValue :=
  if looksLikeJson s then
    match jm s with
    | some j => PyValue.pyJson j
    | none => PyValue.pyStr s
  else PyValue.pyStr s

/-- ConfigManager.get_config (src/config.py lines 74-92): return the
cached value when present; otherwise read the environment, decode the
value, cache it and return it; otherwise return the given default without
recording anything. -/
def get_config (jm : String → Option JsonVal) (st : ConfigManager)
    (key : String) (default : PyValue) : PyValue × ConfigManager :=
  match st.configCache key with
  | some v => (v, st)
  | none =>
    match st.env key with
    | some s =>
      let v := decodeEnvValue jm s
      (v, { st with configCache := fun k => if k = key then some v else st.configCache k })
    | none => (default, st)

/-- ConfigManager.update_config (src/config.py lines 94-104): store the
value in the local cache; when the Firebase client is available, mirror
the update to the remote document, and on failure log the error instead
of raising.  The outcome of the remote write is external network I/O and
is passed in as mirrorResult. -/
def update_config (st : ConfigManager) (key : String) (value : PyValue)
    (mirrorResult : Except String Unit) : ConfigManager :=
  let st1 := { st with configCache := fun k => if k = key then some value else st.configCache k }
  if st1.db then
    match mirrorResult with
    | Except.ok _ => st1
    | Except.error e =>
      { st1 with logs := ("Failed to update config in Firebase: " ++ e) :: st1.logs }
  else st1

/-! Concrete provider behaviours, config states and decoders used by the
witness theorems. -/

/-- A provider that always fails with AuthError. -/
def behA : ProviderBehavior := fun _ => Except.error FetchError.AuthError

/-- A provider that fails with TransientNetworkError on its first two
attempts and succeeds with the empty series on the third. -/
def behB : ProviderBehavior := fun k =>
  if k < 2 then Except.error FetchError.TransientNetworkError else Except.ok []

/-- A provider that always succeeds with the empty series. -/
def behC : ProviderBehavior := fun _ => Except.ok []

/-- A json.loads model that always fails. -/
def jmNone : String → Option JsonVal := fun _ => none

/-- A config-manager state with empty cache, empty environment and no
Firebase client. -/
def cmEmpty : ConfigManager :=
  { configCache := fun _ => none, env := fun _ => none, db := false, logs := [] }

/-- A json.loads model that decodes exactly the literal "[1]". -/
def jm1 : String → Option JsonVal := fun s =>
  if s = "[1]" then some (JsonVal.jArr [JsonVal.jNum 1]) else none

/-- A config-manager state whose cache holds the string "x" under key "k". -/
def cmCacheHit : ConfigManager :=
  { cmEmpty with configCache := fun k => if k = "k" then some (PyValue.pyStr "x") else none }

/-- A config-manager state whose environment holds the literal "[1]" under
key "k". -/
def cmEnvJson : ConfigManager :=
  { cmEmpty with env := fun k => if k = "k" then some "[1]" else none }

/-- A config-manager state with an initialized Firebase client. -/
def cmDb : ConfigManager := { cmEmpty with db := true }

/-! Helper lemmas shared by the claim theorems. -/

/-- A provider whose every attempt is rate-limited is attempted once per
unit of remaining budget plus one. -/
theorem attemptProvider_const_rateLimited (b : ProviderBehavior)
    (hb : ∀ k, b k = Except.error FetchError.RateLimitError) :
    ∀ (fuel made : Nat),
      attemptProvider b made fuel = (Except.error FetchError.RateLimitError, fuel + 1) := by
  intro fuel
  induction fuel with
  | zero => intro made; simp [attemptProvider, hb]
  | succ n ih => intro made; simp [attemptProvider, hb, retryable, ih]

/-- The attempt counter of the per-provider loop never exceeds the retry
budget plus one. -/
theorem attemptProvider_count_le (b : ProviderBehavior) :
    ∀ (fuel made : Nat), (attemptProvider b made fuel).2 ≤ fuel + 1 := by
  intro fuel
  induction fuel with
  | zero => intro made; simp [attemptProvider]
  | succ n ih =>
    intro made
    simp only [attemptProvider]
    cases b made with
    | ok s => simp
    | error e =>
      by_cases hre : retryable e = true
      · simp only [hre, if_true]
        exact Nat.succ_le_succ (ih (made + 1))
      · simp only [Bool.not_eq_true] at hre
        simp [hre]

/-- update_config always installs the value in the local cache map,
whatever the Firebase branch does. -/
theorem update_config_cache (st : ConfigManager) (key : String)
    (value : PyValue) (mr : Except String Unit) :
    (update_config st key value mr).configCache
      = fun k => if k = key then some value else st.configCache k := by
  unfold update_config
  cases hdb : st.db <;> cases mr <;> simp [hdb]

/-- C1: with source auto over providers [A, B, C], if A always fails with
AuthError and B fails with TransientNetworkError on its first two attempts
and succeeds on the third, the orchestrator returns B's normalized series
after one attempt on A and three attempts on B, and provider C is never
invoked (only two attempt counts are recorded); moreover, within one
provider a non-retryable first error (AuthError, UnsupportedSymbolError,
SchemaError) ends the provider after exactly one attempt for every retry
bound N, while a provider that keeps returning a retryable error is
attempted exactly N times. -/
theorem C1_auto_fallback_order
    (bA bB bC : ProviderBehavior) (sB : Series)
    (hA : ∀ k, bA k = Except.error FetchError.AuthError)
    (hB0 : bB 0 = Except.error FetchError.TransientNetworkError)
    (hB1 : bB 1 = Except.error FetchError.TransientNetworkError)
    (hB2 : bB 2 = Except.ok sB) :
    fetch_ohlcv_auto 3 [bA, bB, bC] = (Except.ok sB, [1, 3])
    ∧ (∀ (N : Nat) (b : ProviderBehavior) (e : FetchError),
        retryable e = false → b 0 = Except.error e →
        tryProvider N b = (Except.error e, 1))
    ∧ (∀ (N : Nat) (b : ProviderBehavior), 1 ≤ N →
        (∀ k, b k = Except.error FetchError.RateLimitError) →
        tryProvider N b = (Except.error FetchError.RateLimitError, N)) := by
  refine ⟨?_, ?_, ?_⟩
  · simp [fetch_ohlcv_auto, tryProvider, attemptProvider, hA, hB0, hB1, hB2, retryable]
  · intro N b e hre hb0
    unfold tryProvider
    cases hN : N - 1 with
    | zero => simp [attemptProvider, hb0]
    | succ n => simp [attemptProvider, hb0, hre]
  · intro N b hN hb
    unfold tryProvider
    rw [attemptProvider_const_rateLimited b hb]
    rw [Nat.sub_add_cancel hN]

/-- Witness for C1 at the concrete behaviours behA, behB, behC and the
empty series. -/
theorem C1_auto_fallback_order_witness :
    fetch_ohlcv_auto 3 [behA, behB, behC] = (Except.ok ([] : Series), [1, 3]) :=
  (C1_auto_fallback_order behA behB behC []
    (fun _ => rfl) rfl rfl rfl).1

/-- C2: whenever the auto-fallback fetch fails, its user-visible failure is
the single AllSourcesExhaustedError payload (the only error shape of the
result type), and that payload carries exactly one failure reason per
provider attempted — when the fetch fails, every provider of the list was
attempted and contributed exactly one reason. -/
theorem C2_exhaustion (N : Nat) (bs : List ProviderBehavior) (es : List FetchError)
    (h : (fetch_ohlcv_auto N bs).1 = Except.error es) :
    es.length = bs.length ∧ (fetch_ohlcv_auto N bs).2.length = bs.length := by
  induction bs generalizing es with
  | nil =>
    simp [fetch_ohlcv_auto] at h
    simp [fetch_ohlcv_auto, ← h]
  | cons b rest ih =>
    cases hr : (tryProvider N b).1 with
    | ok s => simp [fetch_ohlcv_auto, hr] at h
    | error e =>
      cases h2 : (fetch_ohlcv_auto N rest).1 with
      | ok s => simp [fetch_ohlcv_auto, hr, h2] at h
      | error es2 =>
        obtain ⟨h3, h4⟩ := ih es2 h2
        simp [fetch_ohlcv_auto, hr, h2] at h ⊢
        subst h
        simp [h3, h4]

/-- Witness for C2: one always-failing provider, whose single AuthError is
the one reason carried by the exhaustion failure. -/
theorem C2_exhaustion_witness :
    (fetch_ohlcv_auto 3 [behA]).1 = Except.error [FetchError.AuthError]
    ∧ ([FetchError.AuthError] : List FetchError).length = [behA].length
    ∧ (fetch_ohlcv_auto 3 [behA]).2.length = [behA].length :=
  ⟨rfl, C2_exhaustion 3 [behA] [FetchError.AuthError] rfl⟩

/-- C3: cache round-trip — after put(key, series, ttl) at instant t0, a get
of the same key at any instant strictly before t0 + ttl returns the stored
series, and a get at or past t0 + ttl returns absent: the cache never
serves data past its ttl. -/
theorem C3_cache_roundtrip (c : Cache) (k : CacheKey) (s : Series) (t0 ttl t : Nat) :
    (t < t0 + ttl → cacheGet (cachePut c k s t0 ttl) k t = some s)
    ∧ (t0 + ttl ≤ t → cacheGet (cachePut c k s t0 ttl) k t = none) := by
  constructor
  · intro h
    simp [cacheGet, cachePut, h]
  · intro h
    simp [cacheGet, cachePut, Nat.not_lt.mpr h]

/-- Witness for C3 at an empty cache, a concrete key, the empty series,
fetch instant 0 and the default ttl 300: a get at instant 10 hits, a get
at instant 300 misses. -/
theorem C3_cache_roundtrip_witness :
    ((10 : Nat) < 0 + 300
      ∧ cacheGet (cachePut (fun _ => none) ("AAPL", "1h", "alpha_vantage") [] 0 300)
          ("AAPL", "1h", "alpha_vantage") 10 = some [])
    ∧ ((0 : Nat) + 300 ≤ 300
      ∧ cacheGet (cachePut (fun _ => none) ("AAPL", "1h", "alpha_vantage") [] 0 300)
          ("AAPL", "1h", "alpha_vantage") 300 = none) :=
  ⟨⟨by decide,
    (C3_cache_roundtrip (fun _ => none) ("AAPL", "1h", "alpha_vantage") [] 0 300 10).1
      (by decide)⟩,
   ⟨by decide,
    (C3_cache_roundtrip (fun _ => none) ("AAPL", "1h", "alpha_vantage") [] 0 300 300).2
      (by decide)⟩⟩

/-- C4: the retry/fallback loop terminates after at most N times the number
of providers adapter attempts: the total attempt count recorded by the
orchestrator is bounded by N multiplied by the length of the provider
list, for every per-provider retry bound N of at least one attempt. -/
theorem C4_termination_bound (N : Nat) (bs : List ProviderBehavior) (hN : 1 ≤ N) :
    ((fetch_ohlcv_auto N bs).2).sum ≤ N * bs.length := by
  have htry : ∀ b : ProviderBehavior, (tryProvider N b).2 ≤ N := by
    intro b
    calc (tryProvider N b).2 ≤ (N - 1) + 1 := attemptProvider_count_le b (N - 1) 0
      _ = N := Nat.sub_add_cancel hN
  induction bs with
  | nil => simp [fetch_ohlcv_auto]
  | cons b rest ih =>
    cases hr : (tryProvider N b).1 with
    | ok s =>
      simp only [fetch_ohlcv_auto, hr, List.length_cons, List.sum_cons, List.sum_nil,
        Nat.add_zero, Nat.mul_succ]
      exact le_trans (htry b) (Nat.le_add_left N (N * rest.length))
    | error e =>
      cases h2 : (fetch_ohlcv_auto N rest).1 with
      | ok s =>
        simp only [fetch_ohlcv_auto, hr, h2, List.length_cons, List.sum_cons, Nat.mul_succ]
        exact le_trans (Nat.add_le_add (htry b) ih) (le_of_eq (Nat.add_comm _ _))
      | error es =>
        simp only [fetch_ohlcv_auto, hr, h2, List.length_cons, List.sum_cons, Nat.mul_succ]
        exact le_trans (Nat.add_le_add (htry b) ih) (le_of_eq (Nat.add_comm _ _))

/-- Witness for C4 with retry bound 3 and the three concrete providers of
the fallback scenario: four attempts in total, at most nine allowed. -/
theorem C4_termination_bound_witness :
    (1 : Nat) ≤ 3
    ∧ ((fetch_ohlcv_auto 3 [behA, behB, behC]).2).sum ≤ 3 * [behA, behB, behC].length :=
  ⟨by decide, C4_termination_bound 3 [behA, behB, behC] (by decide)⟩

/-- C5: on every exit path of the collector's session scope — a normal
return of the body, an exception raised by a fetch, or cancellation — the
session acquired on entry is closed on exit: the final collector state
holds a closed session whatever the body did to the cache and however it
finished. -/
theorem C5_session_released {α : Type} (c : Collector)
    (body : Collector → BodyOutcome α × Cache) :
    (withCollector c body).2.session = some { closed := true } := by
  rcases hb : body (aenter c) with ⟨r, cache1⟩
  simp [withCollector, aenter, aexit, hb]

/-- C6: resolution order of get_config — a cached key returns the cached
value untouched; an uncached key present in the environment returns the
decoded environment value (the JSON parse when the raw string begins with
a brace or bracket and decodes, the raw string otherwise) and records it;
a key absent from both returns the given default. -/
theorem C6_get_config_resolution (jm : String → Option JsonVal)
    (st : ConfigManager) (key : String) (default : PyValue) :
    (∀ v, st.configCache key = some v → get_config jm st key default = (v, st))
    ∧ (∀ s, st.configCache key = none → st.env key = some s →
        get_config jm st key default
          = (decodeEnvValue jm s,
             { st with configCache :=
                fun k => if k = key then some (decodeEnvValue jm s) else st.configCache k }))
    ∧ (∀ s j, looksLikeJson s = true → jm s = some j →
        decodeEnvValue jm s = PyValue.pyJson j)
    ∧ (∀ s, looksLikeJson s = true → jm s = none →
        decodeEnvValue jm s = PyValue.pyStr s)
    ∧ (∀ s, looksLikeJson s = false → decodeEnvValue jm s = PyValue.pyStr s)
    ∧ (st.configCache key = none → st.env key = none →
        get_config jm st key default = (default, st)) := by
  refine ⟨?_, ?_, ?_, ?_, ?_, ?_⟩
  · intro v hv
    simp [get_config, hv]
  · intro s h1 h2
    simp [get_config, h1, h2]
  · intro s j h1 h2
    simp [decodeEnvValue, h1, h2]
  · intro s h1 h2
    simp [decodeEnvValue, h1, h2]
  · intro s h1
    simp [decodeEnvValue, h1]
  · intro h1 h2
    simp [get_config, h1, h2]

/-- Witness for C6 at concrete states: a cache hit, a JSON-looking
environment value that decodes, one that does not, a plain string, and a
key absent everywhere. -/
theorem C6_get_config_resolution_witness :
    get_config jm1 cmCacheHit "k" PyValue.pyNone = (PyValue.pyStr "x", cmCacheHit)
    ∧ decodeEnvValue jm1 "[1]" = PyValue.pyJson (JsonVal.jArr [JsonVal.jNum 1])
    ∧ decodeEnvValue jm1 "[2]" = PyValue.pyStr "[2]"
    ∧ decodeEnvValue jm1 "plain" = PyValue.pyStr "plain"
    ∧ get_config jm1 cmEmpty "k" PyValue.pyNone = (PyValue.pyNone, cmEmpty) :=
  ⟨(C6_get_config_resolution jm1 cmCacheHit "k" PyValue.pyNone).1
      (PyValue.pyStr "x") rfl,
   (C6_get_config_resolution jm1 cmCacheHit "k" PyValue.pyNone).2.2.1
      "[1]" (JsonVal.jArr [JsonVal.jNum 1]) (by decide) rfl,
   (C6_get_config_resolution jm1 cmCacheHit "k" PyValue.pyNone).2.2.2.1
      "[2]" (by decide) rfl,
   (C6_get_config_resolution jm1 cmCacheHit "k" PyValue.pyNone).2.2.2.2.1
      "plain" (by decide),
   (C6_get_config_resolution jm1 cmEmpty "k" PyValue.pyNone).2.2.2.2.2
      rfl rfl⟩

/-- C7: config round-trip — update_config of any value followed by
get_config of the same key returns exactly the stored value with the
state unchanged, whatever json decoder, prior state and mirror outcome;
in particular a structured dict value comes back as the structured value,
never as a string. -/
theorem C7_config_roundtrip (jm : String → Option JsonVal) (st : ConfigManager)
    (key : String) (v : PyValue) (mr : Except String Unit) (d : PyValue) :
    get_config jm (update_config st key v mr) key d = (v, update_config st key v mr)
    ∧ (¬ ∃ s, (get_config jm
        (update_config st key (PyValue.pyJson (JsonVal.jObj [("a", JsonVal.jNum 1)])) mr)
        key d).1 = PyValue.pyStr s) := by
  have hmain : ∀ w : PyValue,
      get_config jm (update_config st key w mr) key d = (w, update_config st key w mr) := by
    intro w
    have hc : (update_config st key w mr).configCache key = some w := by
      rw [update_config_cache]
      simp
    simp [get_config, hc]
  refine ⟨hmain v, ?_⟩
  rintro ⟨s, hs⟩
  rw [hmain (PyValue.pyJson (JsonVal.jObj [("a", JsonVal.jNum 1)]))] at hs
  exact PyValue.noConfusion hs

/-- C8: update_config always installs the value in the local cache and
leaves every other key untouched, for every mirror outcome; it is a total
function into the manager state (it never raises), and when the Firebase
client is available and the mirror write fails, the failure is logged and
the already-performed cache update is retained. -/
theorem C8_update_config_besteffort (st : ConfigManager) (key : String)
    (v : PyValue) (mr : Except String Unit) :
    (update_config st key v mr).configCache key = some v
    ∧ (∀ k, k ≠ key → (update_config st key v mr).configCache k = st.configCache k)
    ∧ (∀ e, st.db = true →
        update_config st key v (Except.error e)
          = { st with
              configCache := fun k => if k = key then some v else st.configCache k,
              logs := ("Failed to update config in Firebase: " ++ e) :: st.logs }) := by
  refine ⟨?_, ?_, ?_⟩
  · rw [update_config_cache]
    simp
  · intro k hk
    rw [update_config_cache]
    simp [hk]
  · intro e hdb
    simp [update_config, hdb]

/-- Witness for C8 at a state with an initialized Firebase client and a
failing mirror write: the cache holds the value, other keys are untouched,
and the failure is logged. -/
theorem C8_update_config_besteffort_witness :
    (update_config cmDb "k" (PyValue.pyStr "x") (Except.error "boom")).configCache "k"
      = some (PyValue.pyStr "x")
    ∧ (("j" : String) ≠ "k"
      ∧ (update_config cmDb "k" (PyValue.pyStr "x") (Except.error "boom")).configCache "j"
          = cmDb.configCache "j")
    ∧ (cmDb.db = true
      ∧ update_config cmDb "k" (PyValue.pyStr "x") (Except.error "boom")
          = { cmDb with
              configCache := fun k => if k = "k" then some (PyValue.pyStr "x")
                else cmDb.configCache k,
              logs := ("Failed to update config in Firebase: " ++ "boom") :: cmDb.logs }) :=
  ⟨(C8_update_config_besteffort cmDb "k" (PyValue.pyStr "x") (Except.error "boom")).1,
   ⟨by decide,
    (C8_update_config_besteffort cmDb "k" (PyValue.pyStr "x") (Except.error "boom")).2.1
      "j" (by decide)⟩,
   ⟨rfl,
    (C8_update_config_besteffort cmDb "k" (PyValue.pyStr "x") (Except.error "boom")).2.2
      "boom" rfl⟩⟩

/-- C9 counterexample: the claim says the string "auto" is an admissible
value of the source type accepted by fetch_ohlcv, but the DataSource enum
of the code is closed over exactly alpha_vantage, polygon, ccxt and
yfinance — no member has the value "auto". -/
theorem C9_auto_counterexample : ¬ ∃ s : DataSource, DataSource.value s = "auto" := by
  rintro ⟨s, h⟩
  cases s <;> simp [DataSource.value] at h

/-- C9 amended: the source field of a fetch request ranges over exactly
the four enumerated providers alpha_vantage, polygon, ccxt and yfinance;
fetch_ohlcv's source parameter defaults to ALPHA_VANTAGE, and no source
value is the string "auto". -/
theorem C9_source_enum_amended :
    (∀ s : DataSource, s = DataSource.ALPHA_VANTAGE ∨ s = DataSource.POLYGON
      ∨ s = DataSource.CCXT ∨ s = DataSource.YFINANCE)
    ∧ fetch_ohlcv_default_source = DataSource.ALPHA_VANTAGE
    ∧ (∀ s : DataSource, DataSource.value s ≠ "auto") := by
  refine ⟨?_, rfl, ?_⟩
  · intro s
    cases s <;> simp
  · intro s h
    cases s <;> simp [DataSource.value] at h

/-- C10: get_config never caches the fallback default — for a key absent
from both cache and environment it returns the default with the state
unchanged, a subsequent call with a different default returns that
default, and once the key appears in the environment a subsequent call
returns the environment-derived value rather than the earlier default. -/
theorem C10_default_not_cached (jm : String → Option JsonVal) (st : ConfigManager)
    (key : String) (d : PyValue)
    (h1 : st.configCache key = none) (h2 : st.env key = none) :
    get_config jm st key d = (d, st)
    ∧ (∀ d', get_config jm st key d' = (d', st))
    ∧ (∀ s, get_config jm
        { st with env := fun k => if k = key then some s else st.env k } key d
        = (decodeEnvValue jm s,
           { st with
             env := fun k => if k = key then some s else st.env k,
             configCache := fun k => if k = key then some (decodeEnvValue jm s)
               else st.configCache k })) := by
  refine ⟨?_, ?_, ?_⟩
  · simp [get_config, h1, h2]
  · intro d'
    simp [get_config, h1, h2]
  · intro s
    simp [get_config, h1]

/-- Witness for C10 at the empty state and key k: the default comes back
unrecorded, a different default comes back next, and after the key
appears in the environment the environment-derived value is returned. -/
theorem C10_default_not_cached_witness :
    cmEmpty.configCache "k" = none
    ∧ cmEmpty.env "k" = none
    ∧ get_config jm1 cmEmpty "k" PyValue.pyNone = (PyValue.pyNone, cmEmpty)
    ∧ get_config jm1 cmEmpty "k" (PyValue.pyStr "y") = (PyValue.pyStr "y", cmEmpty)
    ∧ get_config jm1
        { cmEmpty with env := fun k => if k = "k" then some "plain" else cmEmpty.env k }
        "k" PyValue.pyNone
        = (decodeEnvValue jm1 "plain",
           { cmEmpty with
             env := fun k => if k = "k" then some "plain" else cmEmpty.env k,
             configCache := fun k => if k = "k" then some (decodeEnvValue jm1 "plain")
               else cmEmpty.configCache k }) :=
  ⟨rfl, rfl,
   (C10_default_not_cached jm1 cmEmpty "k" PyValue.pyNone rfl rfl).1,
   (C10_default_not_cached jm1 cmEmpty "k" PyValue.pyNone rfl rfl).2.1 (PyValue.pyStr "y"),
   (C10_default_not_cached jm1 cmEmpty "k" PyValue.pyNone rfl rfl).2.2 "plain"⟩

end AeTrader
